import Mathlib

/-!
Verification of the hotel-metrics forecasting repository (feature builder,
Prophet model wrapper, hyperparameter-search objective, and the ingestion
endpoint `save_hotel_data`).  The Python sources are shallowly embedded:
pandas column operations become functions on `List` values, numeric values
are rationals, and the stateful database interaction becomes explicit
state passing over a list of stored rows.
-/

/-- A calendar date, as carried by the pandas `ds` column (day precision:
`prophet_df['ds'].dt.date`). -/
structure Date where
  year : ℕ
  month : ℕ
  day : ℕ
deriving DecidableEq, Repr

/-- Gregorian leap-year test, as used by the calendar backing pandas dates. -/
def isLeap (y : ℕ) : Bool :=
  y % 4 == 0 && (y % 100 != 0 || y % 400 == 0)

/-- Cumulative day counts before each month in a non-leap year. -/
def daysBeforeMonthList : List ℕ :=
  [0, 31, 59, 90, 120, 151, 181, 212, 243, 273, 304, 334]

/-- Days elapsed in the year strictly before the first of month `m`. -/
def daysBeforeMonth (m : ℕ) (leap : Bool) : ℕ :=
  daysBeforeMonthList.getD (m - 1) 0 + (if leap && decide (3 ≤ m) then 1 else 0)

/-- Proleptic-Gregorian day number (rata die: 0001-01-01 has number 1). -/
def rataDie (dt : Date) : ℕ :=
  let y := dt.year - 1
  365 * y + y / 4 - y / 100 + y / 400 + daysBeforeMonth dt.month (isLeap dt.year) + dt.day

/-- `pandas.Series.dt.dayofweek`: Monday = 0 … Sunday = 6.  0001-01-01
(rata die 1) is a Monday in the proleptic Gregorian calendar. -/
def dayOfWeek (dt : Date) : ℕ :=
  (rataDie dt + 6) % 7

/-- Modelled from the spec: the external `holidays` library US national
calendar (`holidays.US()`), whose data is not part of this repository.
Only the fixed-date federal holidays are modelled; this is a sound
under-approximation sufficient for the claims below. -/
def usHolidays (d : Date) : Bool :=
  (d.month == 1 && d.day == 1) || (d.month == 6 && d.day == 19) ||
  (d.month == 7 && d.day == 4) || (d.month == 11 && d.day == 11) ||
  (d.month == 12 && d.day == 25)

/-- Modelled from the spec: the external `holidays` library India national
calendar (`holidays.IN()`); only the fixed-date national holidays
(Republic Day, Independence Day, Gandhi Jayanti) are modelled. -/
def inHolidays (d : Date) : Bool :=
  (d.month == 1 && d.day == 26) || (d.month == 8 && d.day == 15) ||
  (d.month == 10 && d.day == 2)

/-- `prepare_prophet_data`: the `is_holiday` column value for a date
(`x in us_holidays`, cast to int), using the US calendar. -/
def prepare_is_holiday (d : Date) : ℚ :=
  if usHolidays d then 1 else 0

/-- `predict_for_dates`: the `is_holiday` column value for a requested date,
using `holidays.IN()`. -/
def future_is_holiday (d : Date) : ℚ :=
  if inHolidays d then 1 else 0

/-- `prepare_prophet_data`: the `day_i` one-hot column value
(`(prophet_df['ds'].dt.dayofweek == i).astype(int)`). -/
def day_indicator (d : Date) (i : ℕ) : ℚ :=
  if dayOfWeek d = i then 1 else 0

/-- `predict_for_dates`: the `day_i` column rebuilt for a requested date
(`(future_dates['ds'].dt.dayofweek == day_num).astype(int)`). -/
def future_day_indicator (d : Date) (i : ℕ) : ℚ :=
  if dayOfWeek d = i then 1 else 0

/-- `prepare_prophet_data`: the `is_weekend` column
(`dayofweek.isin([5, 6]).astype(int)`). -/
def is_weekend_flag (d : Date) : ℚ :=
  if dayOfWeek d = 5 ∨ dayOfWeek d = 6 then 1 else 0

/-- `pandas.Series.dt.quarter` for a date. -/
def quarterOf (d : Date) : ℕ :=
  (d.month - 1) / 3 + 1

/-! ## Rolling statistics (`prepare_prophet_data`)

`df[target_col].rolling(window=W).mean()` / `.std()` produce, at row `i`,
the mean / sample standard deviation (`ddof = 1`) of the trailing window
of `W` observations ending at row `i` inclusive, and a null (`NaN`) while
the window has not yet filled (`i + 1 < W`).  The frame-wide
`fillna(method='bfill')` then replaces each null by the nearest
subsequent defined value of the same column.  Columns are embedded as
`List (Option ℚ)` (nulls explicit); the target series is a `List ℚ` of
defined observations (the code guards on the target not being all-NaN). -/

/-- `fillna(method='bfill')` on one column: each entry is replaced by the
first defined entry at its own index or later. -/
def bfill {α : Type} (l : List (Option α)) : List (Option α) :=
  (List.range l.length).map (fun i => (l.drop i).findSome? id)

/-- The trailing window of (at most) `W` observations ending at index `i`
inclusive. -/
def trailingWindow (W : ℕ) (ys : List ℚ) (i : ℕ) : List ℚ :=
  (ys.take (i + 1)).drop (i + 1 - W)

/-- Mean of a list of observations (`sum / count`). -/
def sampleMean (l : List ℚ) : ℚ :=
  l.sum / (l.length : ℚ)

/-- Sample variance with `ddof = 1`, the default of `pandas` `.std()`
(squared deviations from the mean, divided by `count - 1`). -/
def sampleVar (l : List ℚ) : ℚ :=
  (l.map (fun x => (x - sampleMean l) ^ 2)).sum / ((l.length : ℚ) - 1)

/-- A `rolling(window=W)` aggregate column before backfill: the aggregate
`f i` of the window ending at row `i` once the window has filled
(`W ≤ i + 1`), null before. -/
def rollingRaw {α : Type} (len W : ℕ) (f : ℕ → α) : List (Option α) :=
  (List.range len).map (fun i => if W ≤ i + 1 then some (f i) else none)

/-- `rolling(window=W).mean()` before backfill: defined from row `W`
onwards (0-based index `W - 1`), null before. -/
def rollingMeanRaw (W : ℕ) (ys : List ℚ) : List (Option ℚ) :=
  rollingRaw ys.length W (fun i => (trailingWindow W ys i).sum / (W : ℚ))

/-- `rolling(window=W).std()` before backfill (sample standard deviation,
`ddof = 1`), as a real number. -/
noncomputable def rollingStdRaw (W : ℕ) (ys : List ℚ) : List (Option ℝ) :=
  rollingRaw ys.length W (fun i => Real.sqrt ((sampleVar (trailingWindow W ys i) : ℚ) : ℝ))

/-- The `rolling_mean_Wd` column of `prepare_prophet_data`: rolling mean
followed by the backfill. -/
def rollingMeanCol (W : ℕ) (ys : List ℚ) : List (Option ℚ) :=
  bfill (rollingMeanRaw W ys)

/-- The `rolling_std_Wd` column of `prepare_prophet_data`: rolling sample
standard deviation followed by the backfill. -/
noncomputable def rollingStdCol (W : ℕ) (ys : List ℚ) : List (Option ℝ) :=
  bfill (rollingStdRaw W ys)

/-- Stated from the claim: the direct trailing-window mean over the last
`W` observations ending at row `i` inclusive. -/
def directMean (W : ℕ) (ys : List ℚ) (i : ℕ) : ℚ :=
  sampleMean (trailingWindow W ys i)

/-- Stated from the claim: the direct trailing-window (sample) standard
deviation over the last `W` observations ending at row `i` inclusive. -/
noncomputable def directStd (W : ℕ) (ys : List ℚ) (i : ℕ) : ℝ :=
  Real.sqrt ((sampleVar (trailingWindow W ys i) : ℚ) : ℝ)

/-! ## Ingestion (`save_hotel_data` in `web_old/server/app.py`)

Submitted numeric values have already passed the route-level
`float(data[field])` parse, so they are embedded as rationals; `Python`'s
`int(float(x))` truncates toward zero.  The MySQL table becomes an
explicit list of stored rows; the `unique_entry` constraint on
(snapshot date, arrival date, actual/forecast) is modelled from the spec
(the SQL schema is not part of `src/`).  The function returns the store
after the call together with the raised error message, if any; a raise
before the `INSERT`/`commit` leaves the store untouched, exactly as in
the source. -/

/-- `int(float(x))`: truncation toward zero. -/
def pyInt (q : ℚ) : ℤ :=
  if q < 0 then ⌈q⌉ else ⌊q⌋

/-- The numeric and string fields of one submission, as they reach
`save_hotel_data(data, snapshot_date, arrival_date)`. -/
structure Submission where
  totalRoomInventory : ℚ
  roomsSold : ℚ
  arrivalRooms : ℚ
  complimentRooms : ℚ
  houseUse : ℚ
  individualConfirm : ℚ
  occupancyPct : ℚ
  roomRevenue : ℚ
  arr : ℚ
  departureRooms : ℚ
  oooRooms : ℚ
  pax : ℚ
  snapshotDate : String
  arrivalDate : String
  actualOrForecast : String
  dayName : String
  revenueDiff : ℚ
deriving DecidableEq, Repr

/-- One row of the `hotel_data` table, with the conversions applied by the
`values` tuple of the `INSERT` statement. -/
structure StoredRow where
  totalRoomInventory : ℤ
  roomsSold : ℤ
  arrivalRooms : ℤ
  complimentRooms : ℤ
  houseUse : ℤ
  individualConfirm : ℤ
  occupancyPercentage : ℚ
  roomRevenue : ℚ
  arr : ℚ
  departureRooms : ℤ
  oooRooms : ℤ
  pax : ℤ
  snapshotDate : String
  arrivalDate : String
  actualOrForecast : String
  dayOfWeekName : String
  revenueDiff : ℚ
  createdBy : String
deriving DecidableEq, Repr

/-- The `values` tuple built by `save_hotel_data`: integer columns go
through `int(float(...))`, float columns through `float(...)`. -/
def mkStoredRow (s : Submission) (user : String) : StoredRow where
  totalRoomInventory := pyInt s.totalRoomInventory
  roomsSold := pyInt s.roomsSold
  arrivalRooms := pyInt s.arrivalRooms
  complimentRooms := pyInt s.complimentRooms
  houseUse := pyInt s.houseUse
  individualConfirm := pyInt s.individualConfirm
  occupancyPercentage := s.occupancyPct
  roomRevenue := s.roomRevenue
  arr := s.arr
  departureRooms := pyInt s.departureRooms
  oooRooms := pyInt s.oooRooms
  pax := pyInt s.pax
  snapshotDate := s.snapshotDate
  arrivalDate := s.arrivalDate
  actualOrForecast := s.actualOrForecast
  dayOfWeekName := s.dayName
  revenueDiff := s.revenueDiff
  createdBy := user

/-- The uniqueness triple of the `unique_entry` constraint. -/
def dupKey (r : StoredRow) : String × String × String :=
  (r.snapshotDate, r.arrivalDate, r.actualOrForecast)

/-- Message raised for an out-of-range occupancy percentage. -/
def occupancyRangeMsg : String :=
  "Occupancy percentage must be between 0 and 100"

/-- Message raised when rooms sold exceeds the total inventory. -/
def roomsExceedMsg : String :=
  "Rooms sold cannot exceed total inventory"

/-- Message raised for a negative room revenue. -/
def negativeRevenueMsg : String :=
  "Room revenue cannot be negative"

/-- Message raised for a negative ARR. -/
def negativeArrMsg : String :=
  "ARR cannot be negative"

/-- The domain-specific message substituted for the raw
`mysql.connector.IntegrityError` mentioning `unique_entry`. -/
def duplicateEntryMsg : String :=
  "A record for this snapshot date, arrival date, and forecast type already exists"

/-- `save_hotel_data`, over an explicit store.  The checks run in source
order: occupancy range, truncated rooms-sold vs truncated inventory (the
stored-procedure call is a logged no-op: any error from it is caught and
ignored), revenue sign, ARR sign, then the `INSERT` with the duplicate
key translated into `duplicateEntryMsg`.  Returns the store after the
call and the error message if an exception was raised. -/
def save_hotel_data (store : List StoredRow) (s : Submission) (user : String) :
    List StoredRow × Option String :=
  if s.occupancyPct < 0 ∨ 100 < s.occupancyPct then (store, some occupancyRangeMsg)
  else if pyInt s.totalRoomInventory < pyInt s.roomsSold then (store, some roomsExceedMsg)
  else if s.roomRevenue < 0 then (store, some negativeRevenueMsg)
  else if s.arr < 0 then (store, some negativeArrMsg)
  else
    let row := mkStoredRow s user
    if store.any (fun r => decide (dupKey r = dupKey row)) then (store, some duplicateEntryMsg)
    else (store ++ [row], none)

/-! ## Connection lifecycle (`save_hotel_data` and `health_check`)

Each handler opens a fresh connection via `get_db_connection()`.  The
environment records whether the connect succeeds and whether the query
step (`cursor()` / `execute` / `fetchone`) succeeds.  Each model returns,
besides its visible outcome, whether a connection was opened and whether
it was closed by the end of the handler. -/

/-- Which external database steps succeed during one request. -/
structure DBEnv where
  connectOk : Bool
  queryOk : Bool
deriving DecidableEq, Repr

/-- `health_check`: opens a connection, runs `SELECT 1`, closes cursor and
connection, returns 200 — but the two `close()` calls sit on the success
path only; the `except` clause returns 500 without closing.  Result:
(HTTP status, connection opened, connection closed). -/
def health_check (env : DBEnv) : ℕ × Bool × Bool :=
  if env.connectOk then
    if env.queryOk then (200, true, true)
    else (500, true, false)
  else (500, false, false)

/-- `save_hotel_data` connection lifecycle: the whole body sits in a
`try` whose `finally` closes the cursor and the connection, so once the
connection is opened it is closed on every exit path, exceptional or
not.  Result: ((store after, error), connection opened, connection
closed). -/
def save_hotel_data_conn (env : DBEnv) (store : List StoredRow) (s : Submission)
    (user : String) : (List StoredRow × Option String) × Bool × Bool :=
  if env.connectOk then (save_hotel_data store s user, true, true)
  else ((store, some "Database connection failed"), false, false)

/-! ## Hyperparameter-search objective (`objective`) -/

/-- The dictionary returned by a successful trial:
`return {'loss': rmse, 'status': STATUS_OK}`. -/
structure TrialResult where
  loss : ℚ
  status : String
deriving DecidableEq, Repr

/-- `objective`, parametrized by the outcome of
`cross_validation` + `performance_metrics` (`.ok rmse` when the
rolling-origin cross-validation succeeds with mean RMSE `rmse`, `.error`
when it raises).  The source wraps the call in no `try`/`except`, so a
cross-validation failure propagates out of the trial unchanged. -/
def objective (cvOutcome : Except String ℚ) : Except String TrialResult :=
  match cvOutcome with
  | .error e => .error e
  | .ok rmse => .ok ⟨rmse, "STATUS_OK"⟩

/-! ## Model wrapper (`predict_for_dates`, `save_model`, `load_model`,
`predict_with_loaded_model`)

`predict_for_dates` rebuilds the regressor frame for the requested dates
from the reference frame: calendar and holiday columns are re-derived per
date, every other reference column is held at its last observed value
(`reference_df[col].iloc[-1]`).  The fitted Prophet model is opaque
state; its `predict` method is a function field.  `pickle.dump` /
`pickle.load` round-tripping is modelled from the spec as faithful
serialization (a path-indexed store of models); the pickle format itself
is external to the repository. -/

/-- One row of the `future_dates` frame built by `predict_for_dates`. -/
structure FutureRow where
  ds : Date
  dayCols : List ℚ
  isWeekend : ℚ
  monthCol : ℚ
  quarterCol : ℚ
  isHoliday : ℚ
  extras : List (String × ℚ)
deriving DecidableEq, Repr

/-- One forecast row: `forecast[['ds', 'yhat', 'yhat_lower', 'yhat_upper']]`. -/
structure ForecastRow where
  ds : Date
  yhat : ℚ
  yhatLower : ℚ
  yhatUpper : ℚ
deriving DecidableEq, Repr

/-- A fitted Prophet model: opaque state exposing only `predict`. -/
structure ProphetModel where
  predictFn : List FutureRow → List ForecastRow

/-- The regressor row `predict_for_dates` builds for one requested date:
`day_0..day_6` indicators, weekend flag, month, quarter, the
`holidays.IN()` holiday flag, and the last observed value of every other
reference column. -/
def buildFutureRow (refExtras : List (String × ℚ)) (d : Date) : FutureRow where
  ds := d
  dayCols := (List.range 7).map (future_day_indicator d)
  isWeekend := is_weekend_flag d
  monthCol := (d.month : ℚ)
  quarterCol := (quarterOf d : ℚ)
  isHoliday := future_is_holiday d
  extras := refExtras

/-- `predict_for_dates(dates, model, reference_df)`: build the future
frame, run the model, project the four forecast columns. -/
def predict_for_dates (dates : List Date) (model : ProphetModel)
    (refExtras : List (String × ℚ)) : List ForecastRow :=
  model.predictFn (dates.map (buildFutureRow refExtras))

/-- `save_model(model, filepath)`: serialize the model to the path
(overwriting an existing file). -/
def save_model (model : ProphetModel) (filepath : String)
    (fs : List (String × ProphetModel)) : List (String × ProphetModel) :=
  (filepath, model) :: fs

/-- `load_model(filepath)`: deserialize the model from the path, raising
`FileNotFoundError` when the path does not exist. -/
def load_model (filepath : String) (fs : List (String × ProphetModel)) :
    Except String ProphetModel :=
  match fs.lookup filepath with
  | some m => .ok m
  | none => .error ("No model file found at " ++ filepath)

/-- `predict_with_loaded_model(filepath, dates, reference_df)`:
load the model and delegate to `predict_for_dates`. -/
def predict_with_loaded_model (fs : List (String × ProphetModel)) (filepath : String)
    (dates : List Date) (refExtras : List (String × ℚ)) : Except String (List ForecastRow) :=
  (load_model filepath fs).map (fun m => predict_for_dates dates m refExtras)

/-! ## Concrete example inputs used by witnesses and counterexamples -/

/-- A well-formed submission: all range checks pass. -/
def exampleSubmission : Submission where
  totalRoomInventory := 100
  roomsSold := 80
  arrivalRooms := 5
  complimentRooms := 1
  houseUse := 2
  individualConfirm := 3
  occupancyPct := 80
  roomRevenue := 5000
  arr := 125 / 2
  departureRooms := 4
  oooRooms := 0
  pax := 160
  snapshotDate := "2025-01-01"
  arrivalDate := "2025-01-05"
  actualOrForecast := "Actual"
  dayName := "Sunday"
  revenueDiff := 0

/-- A submission whose rooms sold (100.75) exceeds its inventory (100.5)
while both truncate to the same integer 100. -/
def straddleSubmission : Submission :=
  { exampleSubmission with totalRoomInventory := 201 / 2, roomsSold := 403 / 4 }

/-- A concrete fitted model for witnesses: forecasts 0 with a degenerate
interval for every requested date. -/
def exampleModel : ProphetModel :=
  ⟨fun rows => rows.map (fun r => ⟨r.ds, 0, 0, 0⟩)⟩

/-! ## Helper lemmas about backfill and rolling columns -/

/-- Backfill preserves the length of a column. -/
theorem bfill_length {α : Type} (l : List (Option α)) : (bfill l).length = l.length := by
  simp [bfill]

/-- The backfilled entry at index `i` is the first defined entry of the
column at index `i` or later. -/
theorem bfill_getElem? {α : Type} (l : List (Option α)) (i : ℕ) (h : i < l.length) :
    (bfill l)[i]? = some ((l.drop i).findSome? id) := by
  simp [bfill, List.getElem?_range h]

/-- If the entry at index `i` is defined, the first defined entry from
`i` onwards is that entry. -/
theorem findSome?_drop_of_getElem? {α : Type} {l : List (Option α)} {i : ℕ} {v : α}
    (h : l[i]? = some (some v)) : (l.drop i).findSome? id = some v := by
  have hi : i < l.length := by
    by_contra hc
    rw [List.getElem?_eq_none (by omega)] at h
    exact Option.noConfusion h
  have hv : l[i] = some v := by
    rwa [List.getElem?_eq_getElem hi, Option.some_inj] at h
  rw [List.drop_eq_getElem_cons hi, hv]
  simp [List.findSome?_cons]

/-- A null entry at index `i` is skipped by the forward search. -/
theorem findSome?_drop_succ {α : Type} {l : List (Option α)} {i : ℕ}
    (h : l[i]? = some none) : (l.drop i).findSome? id = (l.drop (i + 1)).findSome? id := by
  have hi : i < l.length := by
    by_contra hc
    rw [List.getElem?_eq_none (by omega)] at h
    exact Option.noConfusion h
  have hv : l[i] = none := by
    rwa [List.getElem?_eq_getElem hi, Option.some_inj] at h
  rw [List.drop_eq_getElem_cons hi, hv]
  simp [List.findSome?_cons]

/-- If every entry from `i` up to (excluding) `i + n` is null and the
entry at `i + n` is defined with value `v`, the first defined entry from
`i` onwards is `v`. -/
theorem findSome?_drop_of_none_before {α : Type} (l : List (Option α)) (v : α) :
    ∀ n i, (∀ j, i ≤ j → j < i + n → l[j]? = some none) → l[i + n]? = some (some v) →
      (l.drop i).findSome? id = some v := by
  intro n
  induction n with
  | zero =>
    intro i _ hk
    exact findSome?_drop_of_getElem? (by simpa using hk)
  | succ m ih =>
    intro i hnone hk
    have h0 : l[i]? = some none := hnone i le_rfl (by omega)
    rw [findSome?_drop_succ h0]
    refine ih (i + 1) (fun j hj1 hj2 => hnone j (by omega) (by omega)) ?_
    have : i + (m + 1) = i + 1 + m := by omega
    rwa [this] at hk

/-- A raw rolling column has the length of its frame. -/
theorem rollingRaw_length {α : Type} (len W : ℕ) (f : ℕ → α) :
    (rollingRaw len W f).length = len := by
  simp [rollingRaw]

/-- Entry `i` of a raw rolling column: the aggregate once the window has
filled, null before. -/
theorem rollingRaw_getElem? {α : Type} (len W : ℕ) (f : ℕ → α) (i : ℕ) (h : i < len) :
    (rollingRaw len W f)[i]? = some (if W ≤ i + 1 then some (f i) else none) := by
  simp [rollingRaw, List.getElem?_range h]

/-- A backfilled rolling column of window `W` over at least `W` rows
holds the window aggregate from index `W - 1` onwards, and each earlier
entry holds the aggregate of index `W - 1` (backward propagation of the
nearest subsequent defined value). -/
theorem bfill_rollingRaw {α : Type} (len W : ℕ) (f : ℕ → α) (hW : 1 ≤ W) (hlen : W ≤ len) :
    (∀ i, i < len → W - 1 ≤ i → (bfill (rollingRaw len W f))[i]? = some (some (f i))) ∧
    (∀ i, i < W - 1 → (bfill (rollingRaw len W f))[i]? = some (some (f (W - 1)))) := by
  constructor
  · intro i hi hWi
    rw [bfill_getElem? _ _ (by rw [rollingRaw_length]; exact hi)]
    have hval : (rollingRaw len W f)[i]? = some (some (f i)) := by
      rw [rollingRaw_getElem? len W f i hi, if_pos (by omega)]
    rw [findSome?_drop_of_getElem? hval]
  · intro i hi
    have hi2 : i < len := by omega
    rw [bfill_getElem? _ _ (by rw [rollingRaw_length]; exact hi2)]
    have hk : (rollingRaw len W f)[i + (W - 1 - i)]? = some (some (f (W - 1))) := by
      have he : i + (W - 1 - i) = W - 1 := by omega
      rw [he, rollingRaw_getElem? len W f (W - 1) (by omega), if_pos (by omega)]
    have hnone : ∀ j, i ≤ j → j < i + (W - 1 - i) → (rollingRaw len W f)[j]? = some none := by
      intro j hj1 hj2
      rw [rollingRaw_getElem? len W f j (by omega), if_neg (by omega)]
    rw [findSome?_drop_of_none_before (rollingRaw len W f) (f (W - 1)) (W - 1 - i) i hnone hk]

/-- A filled trailing window has exactly `W` observations. -/
theorem trailingWindow_length (W : ℕ) (ys : List ℚ) (i : ℕ) (hi : i < ys.length)
    (hWi : W ≤ i + 1) : (trailingWindow W ys i).length = W := by
  simp only [trailingWindow, List.length_drop, List.length_take]
  omega

/-- On a filled window, the direct mean is the window sum over `W`,
exactly the value `rolling(window=W).mean()` computes. -/
theorem directMean_eq_sum_div (W : ℕ) (ys : List ℚ) (i : ℕ) (hi : i < ys.length)
    (hWi : W ≤ i + 1) : directMean W ys i = (trailingWindow W ys i).sum / (W : ℚ) := by
  unfold directMean sampleMean
  rw [trailingWindow_length W ys i hi hWi]

/-! ## Claim theorems -/

/-- C1: the holiday flag of `prepare_prophet_data` (built against
`holidays.US()`) and the holiday flag of `predict_for_dates` (built
against `holidays.IN()`) disagree on some calendar date — witnessed by
2025-07-04, a US federal holiday that is not an Indian national
holiday. -/
theorem c1_holiday_calendar_mismatch :
    ∃ d : Date, prepare_is_holiday d ≠ future_is_holiday d :=
  ⟨⟨2025, 7, 4⟩, by decide⟩

/-- C2: for a target series of length at least `W` (`W` being 7 or 14),
the backfilled `rolling_mean_Wd` and `rolling_std_Wd` columns equal the
direct trailing-window mean and sample standard deviation from row `W`
(index `W - 1`) onwards, and each of the first `W - 1` rows holds the
value of row `W` rather than a null. -/
theorem c2_rolling_stats (W : ℕ) (hW : W = 7 ∨ W = 14) (ys : List ℚ) (hlen : W ≤ ys.length) :
    (∀ i, i < ys.length → W - 1 ≤ i →
      (rollingMeanCol W ys)[i]? = some (some (directMean W ys i)) ∧
      (rollingStdCol W ys)[i]? = some (some (directStd W ys i))) ∧
    (∀ i, i < W - 1 →
      (rollingMeanCol W ys)[i]? = some (some (directMean W ys (W - 1))) ∧
      (rollingStdCol W ys)[i]? = some (some (directStd W ys (W - 1)))) := by
  have hW1 : 1 ≤ W := by rcases hW with h | h <;> omega
  obtain ⟨hm1, hm2⟩ :=
    bfill_rollingRaw ys.length W (fun i => (trailingWindow W ys i).sum / (W : ℚ)) hW1 hlen
  obtain ⟨hs1, hs2⟩ :=
    bfill_rollingRaw ys.length W
      (fun i => Real.sqrt ((sampleVar (trailingWindow W ys i) : ℚ) : ℝ)) hW1 hlen
  constructor
  · intro i hi hWi
    refine ⟨?_, ?_⟩
    · rw [rollingMeanCol, rollingMeanRaw, hm1 i hi hWi,
        directMean_eq_sum_div W ys i hi (by omega)]
    · rw [rollingStdCol, rollingStdRaw, hs1 i hi hWi]
      rfl
  · intro i hi
    refine ⟨?_, ?_⟩
    · rw [rollingMeanCol, rollingMeanRaw, hm2 i hi,
        directMean_eq_sum_div W ys (W - 1) (by omega) (by omega)]
    · rw [rollingStdCol, rollingStdRaw, hs2 i hi]
      rfl

/-- Witness for C2 at `W = 7` on the series `1..7`: the last row equals
the direct aggregate and row 0 is backfilled from row 7 (index 6). -/
theorem c2_rolling_stats_witness :
    ((7 : ℕ) = 7 ∨ (7 : ℕ) = 14) ∧ 7 ≤ ([1, 2, 3, 4, 5, 6, 7] : List ℚ).length ∧
    (rollingMeanCol 7 [1, 2, 3, 4, 5, 6, 7])[6]? =
      some (some (directMean 7 [1, 2, 3, 4, 5, 6, 7] 6)) ∧
    (rollingMeanCol 7 [1, 2, 3, 4, 5, 6, 7])[0]? =
      some (some (directMean 7 [1, 2, 3, 4, 5, 6, 7] 6)) ∧
    (rollingStdCol 7 [1, 2, 3, 4, 5, 6, 7])[0]? =
      some (some (directStd 7 [1, 2, 3, 4, 5, 6, 7] 6)) :=
  ⟨Or.inl rfl, by simp,
    ((c2_rolling_stats 7 (Or.inl rfl) [1, 2, 3, 4, 5, 6, 7] (by simp)).1 6 (by simp)
      (by omega)).1,
    ((c2_rolling_stats 7 (Or.inl rfl) [1, 2, 3, 4, 5, 6, 7] (by simp)).2 0 (by omega)).1,
    ((c2_rolling_stats 7 (Or.inl rfl) [1, 2, 3, 4, 5, 6, 7] (by simp)).2 0 (by omega)).2⟩

/-- C3 counterexample: a submission whose rooms sold strictly exceeds its
total inventory (100.75 > 100.5) is accepted, because the code compares
the `int(float(...))` truncations, which coincide at 100.  The claim
"rooms sold exceeding total room inventory raises an error" is therefore
false as stated. -/
theorem c3_counterexample :
    straddleSubmission.totalRoomInventory < straddleSubmission.roomsSold ∧
    (save_hotel_data [] straddleSubmission "alice").2 = none := by
  constructor
  · norm_num [straddleSubmission, exampleSubmission]
  · norm_num [save_hotel_data, straddleSubmission, exampleSubmission, pyInt]

/-- C3 (amended): `save_hotel_data` raises and stores nothing when the
occupancy percentage is outside [0, 100], when the truncated-integer
rooms sold exceeds the truncated-integer inventory (for integer-valued
submissions this is exactly rooms sold exceeding inventory), or when
room revenue or ARR is negative; a submission passing all these range
checks is never rejected on range grounds (it is either stored or
rejected only as a duplicate). -/
theorem c3_range_validation (store : List StoredRow) (s : Submission) (user : String) :
    ((s.occupancyPct < 0 ∨ 100 < s.occupancyPct) →
      save_hotel_data store s user = (store, some occupancyRangeMsg)) ∧
    (¬(s.occupancyPct < 0 ∨ 100 < s.occupancyPct) →
      pyInt s.totalRoomInventory < pyInt s.roomsSold →
      save_hotel_data store s user = (store, some roomsExceedMsg)) ∧
    (¬(s.occupancyPct < 0 ∨ 100 < s.occupancyPct) →
      ¬pyInt s.totalRoomInventory < pyInt s.roomsSold → s.roomRevenue < 0 →
      save_hotel_data store s user = (store, some negativeRevenueMsg)) ∧
    (¬(s.occupancyPct < 0 ∨ 100 < s.occupancyPct) →
      ¬pyInt s.totalRoomInventory < pyInt s.roomsSold → ¬s.roomRevenue < 0 → s.arr < 0 →
      save_hotel_data store s user = (store, some negativeArrMsg)) ∧
    (¬(s.occupancyPct < 0 ∨ 100 < s.occupancyPct) →
      ¬pyInt s.totalRoomInventory < pyInt s.roomsSold → ¬s.roomRevenue < 0 → ¬s.arr < 0 →
      (save_hotel_data store s user).2 = none ∨
        (save_hotel_data store s user).2 = some duplicateEntryMsg) := by
  refine ⟨fun h1 => ?_, fun h1 h2 => ?_, fun h1 h2 h3 => ?_, fun h1 h2 h3 h4 => ?_,
    fun h1 h2 h3 h4 => ?_⟩
  · simp only [save_hotel_data]
    rw [if_pos h1]
  · simp only [save_hotel_data]
    rw [if_neg h1, if_pos h2]
  · simp only [save_hotel_data]
    rw [if_neg h1, if_neg h2, if_pos h3]
  · simp only [save_hotel_data]
    rw [if_neg h1, if_neg h2, if_neg h3, if_pos h4]
  · simp only [save_hotel_data]
    rw [if_neg h1, if_neg h2, if_neg h3, if_neg h4]
    by_cases h5 : store.any (fun r => decide (dupKey r = dupKey (mkStoredRow s user))) = true
    · rw [if_pos h5]
      right
      rfl
    · rw [if_neg h5]
      left
      rfl

/-- Witness for C3 (amended): an occupancy of 101 is rejected with the
occupancy-range message and nothing is stored. -/
theorem c3_range_validation_witness :
    ((101 : ℚ) < 0 ∨ (100 : ℚ) < 101) ∧
    save_hotel_data [] { exampleSubmission with occupancyPct := 101 } "alice" =
      ([], some occupancyRangeMsg) :=
  ⟨Or.inr (by norm_num),
    (c3_range_validation [] { exampleSubmission with occupancyPct := 101 } "alice").1
      (Or.inr (by norm_num [exampleSubmission]))⟩

/-- C4: after a first submission is accepted, a second submission with
the same (snapshot date, arrival date, actual/forecast) triple that
passes the range checks is rejected with the domain-specific duplicate
message (translated from the storage-layer `IntegrityError`), and the
store retains exactly the first row unchanged. -/
theorem c4_duplicate_rejected (store : List StoredRow) (s s2 : Submission) (u u2 : String)
    (hfirst : (save_hotel_data store s u).2 = none)
    (hkey : s2.snapshotDate = s.snapshotDate ∧ s2.arrivalDate = s.arrivalDate ∧
      s2.actualOrForecast = s.actualOrForecast)
    (hocc : ¬(s2.occupancyPct < 0 ∨ 100 < s2.occupancyPct))
    (hrooms : ¬pyInt s2.totalRoomInventory < pyInt s2.roomsSold)
    (hrev : ¬s2.roomRevenue < 0) (harr : ¬s2.arr < 0) :
    (save_hotel_data store s u).1 = store ++ [mkStoredRow s u] ∧
    save_hotel_data (save_hotel_data store s u).1 s2 u2 =
      ((save_hotel_data store s u).1, some duplicateEntryMsg) := by
  have hres : save_hotel_data store s u = (store ++ [mkStoredRow s u], none) := by
    by_cases h1 : s.occupancyPct < 0 ∨ 100 < s.occupancyPct
    · rw [save_hotel_data, if_pos h1] at hfirst
      exact absurd hfirst (by simp)
    by_cases h2 : pyInt s.totalRoomInventory < pyInt s.roomsSold
    · rw [save_hotel_data, if_neg h1, if_pos h2] at hfirst
      exact absurd hfirst (by simp)
    by_cases h3 : s.roomRevenue < 0
    · rw [save_hotel_data, if_neg h1, if_neg h2, if_pos h3] at hfirst
      exact absurd hfirst (by simp)
    by_cases h4 : s.arr < 0
    · rw [save_hotel_data, if_neg h1, if_neg h2, if_neg h3, if_pos h4] at hfirst
      exact absurd hfirst (by simp)
    by_cases h5 : store.any (fun r => decide (dupKey r = dupKey (mkStoredRow s u))) = true
    · rw [save_hotel_data, if_neg h1, if_neg h2, if_neg h3, if_neg h4] at hfirst
      simp only [if_pos h5] at hfirst
      exact absurd hfirst (by simp)
    · rw [save_hotel_data, if_neg h1, if_neg h2, if_neg h3, if_neg h4]
      simp only [if_neg h5]
  refine ⟨by rw [hres], ?_⟩
  rw [hres]
  rw [save_hotel_data, if_neg hocc, if_neg hrooms, if_neg hrev, if_neg harr]
  have hdup : (store ++ [mkStoredRow s u]).any
      (fun r => decide (dupKey r = dupKey (mkStoredRow s2 u2))) = true := by
    rw [List.any_append]
    refine Bool.or_inr ?_
    simp only [List.any_cons, List.any_nil, Bool.or_false, decide_eq_true_eq]
    simp [dupKey, mkStoredRow, hkey.1, hkey.2.1, hkey.2.2]
  simp only [if_pos hdup]

/-- Witness for C4: submitting `exampleSubmission` twice — the first is
stored, the second rejected with the duplicate message. -/
theorem c4_duplicate_rejected_witness :
    (save_hotel_data [] exampleSubmission "alice").2 = none ∧
    save_hotel_data (save_hotel_data [] exampleSubmission "alice").1 exampleSubmission "bob" =
      ((save_hotel_data [] exampleSubmission "alice").1, some duplicateEntryMsg) :=
  ⟨by norm_num [save_hotel_data, exampleSubmission, pyInt],
    (c4_duplicate_rejected [] exampleSubmission exampleSubmission "alice" "bob"
      (by norm_num [save_hotel_data, exampleSubmission, pyInt])
      ⟨rfl, rfl, rfl⟩
      (by norm_num [exampleSubmission])
      (by norm_num [exampleSubmission, pyInt])
      (by norm_num [exampleSubmission])
      (by norm_num [exampleSubmission])).2⟩

/-- C5: contrary to the claim, `objective` wraps `cross_validation` in no
`try`/`except`, so a cross-validation failure propagates out of the trial
instead of being converted to a high-loss `STATUS_OK` result. -/
theorem c5_cv_failure_propagates :
    objective (Except.error "insufficient history for a fold") =
      Except.error "insufficient history for a fold" := rfl

/-- C6 counterexample: when the connection opens but the `SELECT 1`
query fails, `health_check` returns 500 with the connection opened and
never closed — its `close()` calls sit on the success path only, with no
`finally`.  The claim that every handler closes on every exit path is
therefore false. -/
theorem c6_counterexample :
    health_check ⟨true, false⟩ = (500, true, false) := rfl

/-- C6 (amended): `save_hotel_data` closes its connection on every exit
path (its body is guarded by `finally`), while `health_check` closes its
connection only on the success path. -/
theorem c6_connection_release :
    (∀ env store s user, (save_hotel_data_conn env store s user).2.1 = true →
      (save_hotel_data_conn env store s user).2.2 = true) ∧
    (∀ env : DBEnv, (health_check env).2.1 = true → env.queryOk = true →
      (health_check env).2.2 = true) := by
  constructor
  · intro env store s user h
    unfold save_hotel_data_conn at h ⊢
    by_cases hc : env.connectOk = true
    · simp [hc]
    · simp [hc] at h
  · intro env h hq
    unfold health_check at h ⊢
    by_cases hc : env.connectOk = true
    · simp [hc, hq]
    · simp [hc] at h

/-- Witness for C6 (amended), in the all-steps-succeed environment. -/
theorem c6_connection_release_witness :
    (save_hotel_data_conn ⟨true, true⟩ [] exampleSubmission "alice").2.2 = true ∧
    (health_check ⟨true, true⟩).2.2 = true :=
  ⟨c6_connection_release.1 ⟨true, true⟩ [] exampleSubmission "alice" rfl,
    c6_connection_release.2 ⟨true, true⟩ rfl rfl⟩

/-- C7 counterexample: a submission with the non-integral value 5.5 for
Rooms Sold is accepted, and the persisted row holds 5 — the value was
silently truncated by `int(float(...))`, not rejected, contradicting the
claim that no accepted value is coerced. -/
theorem c7_counterexample :
    (save_hotel_data [] { exampleSubmission with roomsSold := 11 / 2 } "alice").2 = none ∧
    (save_hotel_data [] { exampleSubmission with roomsSold := 11 / 2 } "alice").1 =
      [mkStoredRow { exampleSubmission with roomsSold := 11 / 2 } "alice"] ∧
    ((mkStoredRow { exampleSubmission with roomsSold := 11 / 2 } "alice").roomsSold : ℚ) ≠
      ({ exampleSubmission with roomsSold := 11 / 2 } : Submission).roomsSold := by
  refine ⟨?_, ?_, ?_⟩
  · norm_num [save_hotel_data, exampleSubmission, pyInt]
  · norm_num [save_hotel_data, exampleSubmission, pyInt]
  · norm_num [mkStoredRow, exampleSubmission, pyInt]

/-- C7 (amended): for every accepted submission the float-valued fields
(occupancy, revenue, ARR, revenue difference) are persisted exactly as
submitted, while the integer-valued fields are persisted as the
toward-zero truncation `int(float(...))` of the submitted value — so
non-integral values for integer fields are silently truncated rather
than rejected. -/
theorem c7_persisted_values (store : List StoredRow) (s : Submission) (user : String)
    (haccept : (save_hotel_data store s user).2 = none) :
    (save_hotel_data store s user).1 = store ++ [mkStoredRow s user] ∧
    (mkStoredRow s user).occupancyPercentage = s.occupancyPct ∧
    (mkStoredRow s user).roomRevenue = s.roomRevenue ∧
    (mkStoredRow s user).arr = s.arr ∧
    (mkStoredRow s user).revenueDiff = s.revenueDiff ∧
    (mkStoredRow s user).totalRoomInventory = pyInt s.totalRoomInventory ∧
    (mkStoredRow s user).roomsSold = pyInt s.roomsSold ∧
    (mkStoredRow s user).arrivalRooms = pyInt s.arrivalRooms ∧
    (mkStoredRow s user).complimentRooms = pyInt s.complimentRooms ∧
    (mkStoredRow s user).houseUse = pyInt s.houseUse ∧
    (mkStoredRow s user).individualConfirm = pyInt s.individualConfirm ∧
    (mkStoredRow s user).departureRooms = pyInt s.departureRooms ∧
    (mkStoredRow s user).oooRooms = pyInt s.oooRooms ∧
    (mkStoredRow s user).pax = pyInt s.pax := by
  refine ⟨?_, rfl, rfl, rfl, rfl, rfl, rfl, rfl, rfl, rfl, rfl, rfl, rfl, rfl⟩
  by_cases h1 : s.occupancyPct < 0 ∨ 100 < s.occupancyPct
  · rw [save_hotel_data, if_pos h1] at haccept
    exact absurd haccept (by simp)
  by_cases h2 : pyInt s.totalRoomInventory < pyInt s.roomsSold
  · rw [save_hotel_data, if_neg h1, if_pos h2] at haccept
    exact absurd haccept (by simp)
  by_cases h3 : s.roomRevenue < 0
  · rw [save_hotel_data, if_neg h1, if_neg h2, if_pos h3] at haccept
    exact absurd haccept (by simp)
  by_cases h4 : s.arr < 0
  · rw [save_hotel_data, if_neg h1, if_neg h2, if_neg h3, if_pos h4] at haccept
    exact absurd haccept (by simp)
  by_cases h5 : store.any (fun r => decide (dupKey r = dupKey (mkStoredRow s user))) = true
  · rw [save_hotel_data, if_neg h1, if_neg h2, if_neg h3, if_neg h4] at haccept
    simp only [if_pos h5] at haccept
    exact absurd haccept (by simp)
  · rw [save_hotel_data, if_neg h1, if_neg h2, if_neg h3, if_neg h4]
    simp only [if_neg h5]

/-- Witness for C7 (amended) on an accepted submission. -/
theorem c7_persisted_values_witness :
    (save_hotel_data [] exampleSubmission "alice").2 = none ∧
    (save_hotel_data [] exampleSubmission "alice").1 =
      [] ++ [mkStoredRow exampleSubmission "alice"] ∧
    (mkStoredRow exampleSubmission "alice").occupancyPercentage =
      exampleSubmission.occupancyPct :=
  ⟨by norm_num [save_hotel_data, exampleSubmission, pyInt],
    (c7_persisted_values [] exampleSubmission "alice"
      (by norm_num [save_hotel_data, exampleSubmission, pyInt])).1,
    (c7_persisted_values [] exampleSubmission "alice"
      (by norm_num [save_hotel_data, exampleSubmission, pyInt])).2.1⟩

/-- C8: saving a model to a path and predicting through
`predict_with_loaded_model` yields exactly the forecast rows of
`predict_for_dates` on the original model, for every model, path, prior
file-store contents, requested dates and reference columns. -/
theorem c8_save_load_roundtrip (model : ProphetModel) (filepath : String)
    (fs : List (String × ProphetModel)) (dates : List Date)
    (refExtras : List (String × ℚ)) :
    predict_with_loaded_model (save_model model filepath fs) filepath dates refExtras =
      Except.ok (predict_for_dates dates model refExtras) := by
  simp [predict_with_loaded_model, load_model, save_model, List.lookup, Except.map]

/-- Witness for C8 on a concrete model, path and date list. -/
theorem c8_save_load_roundtrip_witness :
    predict_with_loaded_model (save_model exampleModel "final_model.pkl" [])
        "final_model.pkl" [⟨2025, 6, 20⟩] [] =
      Except.ok (predict_for_dates [⟨2025, 6, 20⟩] exampleModel []) :=
  c8_save_load_roundtrip exampleModel "final_model.pkl" [] [⟨2025, 6, 20⟩] []

/-- C9: for every date, exactly one of the seven `day_0..day_6`
indicators is 1 and the other six are 0, both in the historical feature
rows of `prepare_prophet_data` and in the rows `predict_for_dates`
builds for requested dates. -/
theorem c9_day_one_hot (d : Date) (refExtras : List (String × ℚ)) :
    (((List.range 7).map (day_indicator d)).count 1 = 1 ∧
      ((List.range 7).map (day_indicator d)).count 0 = 6) ∧
    ((buildFutureRow refExtras d).dayCols.count 1 = 1 ∧
      (buildFutureRow refExtras d).dayCols.count 0 = 6) := by
  have hlt : dayOfWeek d < 7 := Nat.mod_lt _ (by norm_num)
  unfold buildFutureRow day_indicator future_day_indicator
  dsimp only
  generalize hq : dayOfWeek d = k
  rw [hq] at hlt
  interval_cases k <;> decide

/-- Witness for C9 at 2025-06-20 (a Friday). -/
theorem c9_day_one_hot_witness :
    ((List.range 7).map (day_indicator ⟨2025, 6, 20⟩)).count 1 = 1 ∧
    ((buildFutureRow [] ⟨2025, 6, 20⟩).dayCols.count 0 = 6) :=
  ⟨(c9_day_one_hot ⟨2025, 6, 20⟩ []).1.1, (c9_day_one_hot ⟨2025, 6, 20⟩ []).2.2⟩

/-- C10: whenever a range check of `save_hotel_data` fires (occupancy
outside [0, 100], truncated rooms sold above truncated inventory,
negative revenue or negative ARR), the call returns an error and the
store is unchanged — the raise happens before the `INSERT` and the
commit. -/
theorem c10_validation_atomic (store : List StoredRow) (s : Submission) (user : String)
    (h : s.occupancyPct < 0 ∨ 100 < s.occupancyPct ∨
      pyInt s.totalRoomInventory < pyInt s.roomsSold ∨ s.roomRevenue < 0 ∨ s.arr < 0) :
    (save_hotel_data store s user).1 = store ∧ (save_hotel_data store s user).2 ≠ none := by
  unfold save_hotel_data
  split_ifs with h1 h2 h3 h4 <;> simp_all

/-- Witness for C10: an occupancy of 101 leaves an empty store empty and
returns an error. -/
theorem c10_validation_atomic_witness :
    ((100 : ℚ) < 101) ∧
    (save_hotel_data [] { exampleSubmission with occupancyPct := 101 } "alice").1 = [] ∧
    (save_hotel_data [] { exampleSubmission with occupancyPct := 101 } "alice").2 ≠ none :=
  ⟨by norm_num,
    c10_validation_atomic [] { exampleSubmission with occupancyPct := 101 } "alice"
      (Or.inr (Or.inl (by norm_num [exampleSubmission])))⟩
